import Mathlib

/-!
Shallow embedding of the CurrencyPP Flow Launcher plugin
(`src/currencypp.py`, class `CurrencyPP`).

The single source file implements the query pipeline (`query`,
`_is_direct_request`, `_parse_and_merge_input`) and the configuration
reconciler (`_read_config`, `reload_settings`).  The `exchange` module
(class `ExchangeRates`, the rate broker) and the `currencyparser` module
(`make_parser`, `ParserProperties`) are part of this plugin but are not
under `src/`; their behaviour is modelled from the spec where it decides a
claim, and kept abstract (universally quantified) where it does not.

Python exceptions are modelled with `Except PyErr`; Python `float`
parsing is modelled by `pyFloat` below (sign, digits, decimal point,
exponent, inf/infinity/nan, surrounding whitespace; numeric-literal
underscores are not modelled).
-/

deriving instance DecidableEq for Except

/-- Python exception classes that can cross function boundaries here.
`currencyError` is `exchange.CurrencyError` (caught specially in `query`). -/
inductive PyErr where
  | attributeError
  | typeError
  | currencyError (msg : String)
deriving DecidableEq, Repr

/-- Whitespace strip on characters (Python `str.strip()`; ASCII-level
whitespace, which covers the plugin's inputs). -/
def ctrim (l : List Char) : List Char :=
  ((l.dropWhile (fun c => c.isWhitespace)).reverse.dropWhile
    (fun c => c.isWhitespace)).reverse

/-- Python `str.strip()` lifted to strings, kernel-reducible. -/
def strim (s : String) : String := ⟨ctrim s.data⟩

/-- Python `str.lower()` (ASCII-level), kernel-reducible. -/
def slower (s : String) : String := ⟨s.data.map Char.toLower⟩

/-- Python `str.upper()` (ASCII-level), kernel-reducible. -/
def supper (s : String) : String := ⟨s.data.map Char.toUpper⟩

/-- Result of Python `float(s)`: a finite value, an infinity, or nan.
A finite value is kept in the exact decimal form the literal denotes,
`num · 10 ^ exp` (not normalized); no two distinct literals compared by
any claim share a value, so this representation is faithful for them. -/
inductive PyFloat where
  | finite (num : ℤ) (exp : ℤ)
  | inf
  | neginf
  | nan
deriving DecidableEq, Repr

/-- The rational value of a finite `PyFloat`. -/
def PyFloat.val : PyFloat → Option ℚ
  | .finite n e => some ((n : ℚ) * (10 : ℚ) ^ e)
  | _ => none

/-- Helper for `wsplit`: accumulates the current token reversed. -/
def wsplitAux : List Char → List Char → List String
  | [], acc => if acc = [] then [] else [⟨acc.reverse⟩]
  | c :: r, acc =>
    if c.isWhitespace then
      if acc = [] then wsplitAux r [] else ⟨acc.reverse⟩ :: wsplitAux r []
    else wsplitAux r (c :: acc)

/-- Whitespace split, as Python `str.split()` with no argument:
maximal runs of whitespace separate tokens, empty tokens dropped. -/
def wsplit (s : String) : List String := wsplitAux s.data []

/-- Helper for `splitNl`. -/
def splitNlAux : List Char → List Char → List String
  | [], acc => [⟨acc.reverse⟩]
  | c :: r, acc =>
    if c = '\n' then ⟨acc.reverse⟩ :: splitNlAux r [] else splitNlAux r (c :: acc)

/-- Python `str.splitlines()` modelled for newline-separated text. -/
def splitNl (s : String) : List String := splitNlAux s.data []

/-- Helper for `splitEq1`. -/
def splitEq1Aux : List Char → List Char → Option (String × String)
  | [], _ => none
  | c :: r, acc =>
    if c = '=' then some (⟨acc.reverse⟩, ⟨r⟩) else splitEq1Aux r (c :: acc)

/-- Python `line.split('=', 1)` restricted to lines containing `'='`:
the text before the first `'='` and the text after it. -/
def splitEq1 (s : String) : Option (String × String) := splitEq1Aux s.data []

/-- Python `' '.join(xs)`, kernel-reducible. -/
def sjoin : List String → String
  | [] => ""
  | [x] => x
  | x :: r => ⟨x.data ++ ' ' :: (sjoin r).data⟩

/-- Numeric value of a digit string. -/
def digitsVal (l : List Char) : ℕ :=
  l.foldl (fun a c => a * 10 + (c.toNat - 48)) 0

/-- Optional leading sign; returns (isNegative, rest). -/
def parseSign : List Char → Bool × List Char
  | '-' :: r => (true, r)
  | '+' :: r => (false, r)
  | l => (false, l)

/-- Assemble a finite float value from mantissa digits, the number of
fraction digits, and a signed decimal exponent. -/
def mkFinite (neg : Bool) (mant : List Char) (frac : ℕ) (ex : ℕ) (eneg : Bool) : PyFloat :=
  let ez : ℤ := (if eneg then -(ex : ℤ) else (ex : ℤ)) - (frac : ℤ)
  let n : ℤ := digitsVal mant
  .finite (if neg then -n else n) ez

/-- Numeric part of the Python float grammar:
`digits [. digits] [e [sign] digits]` or `. digits [e [sign] digits]`,
with at least one mantissa digit and full consumption of the input. -/
def parseNumeric (neg : Bool) (l : List Char) : Option PyFloat :=
  let p1 := l.span (fun c => c.isDigit)
  let p2 : List Char × List Char :=
    match p1.2 with
    | '.' :: t => t.span (fun c => c.isDigit)
    | _ => ([], p1.2)
  let hadDot : Bool := match p1.2 with | '.' :: _ => true | _ => false
  let rest : List Char := if hadDot then p2.2 else p1.2
  let mant := p1.1 ++ p2.1
  if mant.isEmpty then none
  else
    match rest with
    | [] => some (mkFinite neg mant p2.1.length 0 false)
    | 'e' :: t =>
      let se := parseSign t
      let p3 := se.2.span (fun c => c.isDigit)
      if p3.1.isEmpty ∨ ¬ p3.2.isEmpty then none
      else some (mkFinite neg mant p2.1.length (digitsVal p3.1) se.1)
    | _ => none

/-- Core of `float(s)` on an already lower-cased, stripped character list. -/
def pyFloatCore (l : List Char) : Option PyFloat :=
  let sr := parseSign l
  if sr.2 = "inf".data ∨ sr.2 = "infinity".data then
    some (if sr.1 then .neginf else .inf)
  else if sr.2 = "nan".data then some .nan
  else parseNumeric sr.1 sr.2

/-- Model of Python `float(s)`: `some v` when `float` accepts `s`,
`none` when it raises `ValueError`. -/
def pyFloat (s : String) : Option PyFloat :=
  pyFloatCore ((ctrim s.data).map Char.toLower)

/-- One entry of the `sources` list of a query dict:
`{'currency': c_or_None, 'amount': a}`. -/
structure SrcEntry where
  currency : Option String
  amount : PyFloat
deriving DecidableEq, Repr

/-- The query dict built and returned by `_parse_and_merge_input`:
`{'sources': ..., 'destinations': ..., 'extra': ...}`, each possibly None.
Destination entries `{'currency': c}` are modelled by the code `c` alone. -/
structure QueryDict where
  sources : Option (List SrcEntry)
  destinations : Option (List String)
  extra : Option String
deriving DecidableEq, Repr

/-- The grammar parser produced by `currencyparser.make_parser`:
returns a query dict or raises `parsy.ParseError` (modelled as `.error ()`). -/
def QParser : Type := String → Except Unit QueryDict

/-- Update frequency enumeration (`exchange.UpdateFreq`).
Modelled from the spec: hourly / daily / weekly / manual. -/
inductive UpdateFreq where
  | hourly
  | daily
  | weekly
  | manual
deriving DecidableEq, Repr

/-- Modelled from the spec: `UpdateFreq(value)` accepts exactly the
enumerated member values and raises `ValueError` otherwise. -/
def UpdateFreq.parse (s : String) : Option UpdateFreq :=
  if s = "hourly" then some .hourly
  else if s = "daily" then some .daily
  else if s = "weekly" then some .weekly
  else if s = "manual" then some .manual
  else none

/-- Modelled from the spec: the `exchange.ExchangeRates` broker state.
`known` is the Registry's known currency-code set; `expensive_service`
carries the remote service's `app_id` when the service object is present;
`default_cur_in` / `default_curs_out` are `None` until successfully set;
`stale` is the staleness state driving `tryUpdate`; `fetchResult` is what
a fetch from the remote service would currently return (environment). -/
structure Broker where
  known : List String
  update_freq : UpdateFreq
  expensive_service : Option String
  default_cur_in : Option String
  default_curs_out : Option (List String)
  aliases : List (String × String)
  error : Option String
  rates : List (String × ℚ)
  last_update : ℕ
  stale : Bool
  fetchResult : Except String (List (String × ℚ) × ℕ)
deriving DecidableEq, Repr

/-- Modelled from the spec: `validateCode` normalizes case/whitespace and
checks membership in the known code set. -/
def validateCode (known : List String) (s : String) : Option String :=
  let c := supper (strim s)
  if known.contains c then some c else none

/-- Modelled from the spec: `validateAlias` rejects empty tokens and
tokens equal to a canonical code spelling; aliases are case-insensitive. -/
def validateAlias (known : List String) (s : String) : Option String :=
  let a := slower (strim s)
  if a = "" ∨ known.contains (supper a) then none else some a

/-- Modelled from the spec: `set_default_cur_in` validates via the
Registry; on success mutates and returns true, on failure leaves the
prior value untouched and returns false. -/
def set_default_cur_in (b : Broker) (s : String) : Bool × Broker :=
  match validateCode b.known s with
  | some c => (true, { b with default_cur_in := some c })
  | none => (false, b)

/-- Modelled from the spec: `set_default_curs_out` parses a
whitespace-separated code list, validating each code, all-or-nothing. -/
def set_default_curs_out (b : Broker) (s : String) : Bool × Broker :=
  let toks := wsplit s
  let vs := toks.map (validateCode b.known)
  if toks ≠ [] ∧ vs.all Option.isSome then
    (true, { b with default_curs_out := some (vs.reduceOption) })
  else (false, b)

/-- Python dict insertion: overwrite an existing key, else append. -/
def dictInsert (m : List (String × String)) (k v : String) : List (String × String) :=
  if m.any (fun p => p.1 = k) then
    m.map (fun p => if p.1 = k then (k, v) else p)
  else m ++ [(k, v)]

/-- Modelled from the spec: unconditional fetch attempt (`update` /
`force_update`): on success replace the rate table, clear the error and
set `last_update`; on failure set the error and leave the table alone. -/
def brokerUpdate (b : Broker) : Broker :=
  match b.fetchResult with
  | .ok r => { b with rates := r.1, error := none, last_update := r.2, stale := false }
  | .error m => { b with error := some m }

/-- Modelled from the spec: `tryUpdate` attempts a fetch only when stale,
returning whether an update was attempted. -/
def tryUpdate (b : Broker) : Bool × Broker :=
  if b.stale then (true, brokerUpdate b) else (false, b)

/-- Plugin instance state used by the embedded methods:
`self.broker` (None before first successful construction) and
`self.parser` (None when all parser construction attempts failed). -/
structure PluginState where
  broker : Option Broker
  parser : Option QParser

/-- The base query of `_parse_and_merge_input` when the defensive
construction from broker state failed (lines 139-145). -/
def fallbackBase (empty : Bool) : QueryDict :=
  ⟨if empty then none else some [⟨some "USD", .finite 1 0⟩],
   if empty then none else some ["EUR"], none⟩

/-- The `base_query` of `_parse_and_merge_input` (lines 130-145): built
from broker defaults; any exception while reading them (broker None, or
iterating a None destination list) falls back to the hardcoded base. -/
def mkBase (br : Option Broker) (empty : Bool) : QueryDict :=
  match br with
  | none => fallbackBase empty
  | some b =>
    if empty then ⟨none, none, none⟩
    else
      match b.default_curs_out with
      | some l => ⟨some [⟨b.default_cur_in, .finite 1 0⟩], some l, none⟩
      | none => fallbackBase empty

/-- `CurrencyPP._parse_and_merge_input(user_input, empty)` (lines 120-176).
Blank input returns the base query; input accepted by `float` takes the
fast path; otherwise the parser runs, `ParseError` degrades to the base
query, and a successful parse gets missing (`None` or empty) destinations
and sources backfilled from broker defaults. -/
def parseAndMerge (br : Option Broker) (pr : Option QParser) (input : String)
    (empty : Bool) : Except PyErr QueryDict :=
  let base := mkBase br empty
  if strim input = "" then .ok base
  else
    let s := strim input
    match pyFloat s with
    | some a =>
      match br with
      | none => .error .attributeError
      | some b =>
        match b.default_curs_out with
        | none => .error .typeError
        | some l => .ok ⟨some [⟨b.default_cur_in, a⟩], some l, none⟩
    | none =>
      match pr with
      | none => .error .attributeError
      | some p =>
        match p s with
        | .error _ => .ok base
        | .ok parsed =>
          let destStep : Except PyErr (Option (List String)) :=
            if parsed.destinations = none ∨ parsed.destinations = some [] then
              match br with
              | none => .error .attributeError
              | some b =>
                match b.default_curs_out with
                | none => .error .typeError
                | some l => .ok (some l)
            else .ok parsed.destinations
          match destStep with
          | .error e => .error e
          | .ok ds =>
            let srcStep : Except PyErr (Option (List SrcEntry)) :=
              if parsed.sources = none ∨ parsed.sources = some [] then
                match br with
                | none => .error .attributeError
                | some b => .ok (some [⟨b.default_cur_in, .finite 1 0⟩])
              else .ok parsed.sources
            match srcStep with
            | .error e => .error e
            | .ok ss => .ok ⟨ss, ds, parsed.extra⟩

/-- `CurrencyPP._is_direct_request` (lines 112-118): the query names a
destination list or its first source names a currency. -/
def isDirect (q : QueryDict) : Bool :=
  q.destinations.isSome ||
    (match q.sources with
     | some (e :: _) => e.currency.isSome
     | _ => false)

/-- A computed numeric amount: a true rational (conversion output can mix
arbitrary rate ratios into a parsed amount) or a special float value. -/
inductive PyNum where
  | rat (q : ℚ)
  | inf
  | neginf
  | nan
deriving DecidableEq, Repr

/-- One conversion result record `{title, description, amount}` handed to
the presentation layer.  The exchange module's display strings are not in
src/; both are abstracted to the destination code. -/
structure ConvResult where
  title : String
  description : String
  amount : PyNum
deriving DecidableEq, Repr

/-- Rate lookup in the cached table. -/
def lookupRate (rates : List (String × ℚ)) (c : String) : Option ℚ :=
  (rates.find? (fun p => p.1 = c)).map (fun p => p.2)

/-- Amount `a` in source currency with rate `rs` converted to a
destination currency with rate `rd`: `a * rd / rs`. -/
def pyScale (a : PyFloat) (rs rd : ℚ) : PyNum :=
  match a with
  | .finite n e => .rat ((n : ℚ) * (10 : ℚ) ^ e * rd / rs)
  | .inf => .inf
  | .neginf => .neginf
  | .nan => .nan

/-- Modelled from the spec: `Broker.convert`: for each source amount in
currency Cs and each destination Cd, `a * rate[Cd] / rate[Cs]`; a currency
absent from the rate table raises `CurrencyError` (RateUnavailable). -/
def convertOne (b : Broker) (dsts : List String) (s : SrcEntry) :
    Except PyErr (List ConvResult) :=
  match s.currency with
  | none => .error (.currencyError "invalid source currency")
  | some cs =>
    match lookupRate b.rates cs with
    | none => .error (.currencyError cs)
    | some rs =>
      dsts.mapM (fun d =>
        (match lookupRate b.rates d with
         | none => .error (.currencyError d)
         | some rd => .ok ⟨d, d, pyScale s.amount rs rd⟩ :
          Except PyErr ConvResult))

/-- The result list of `Broker.convert`, one batch per source entry. -/
def convert (b : Broker) (q : QueryDict) : Except PyErr (List ConvResult) :=
  match q.sources, q.destinations with
  | some srcs, some dsts => (srcs.mapM (convertOne b dsts)).map List.flatten
  | _, _ => .error (.currencyError "missing sources or destinations")

/-- The items `query` pushes to the host UI, in order of `add_item` calls.
`webserviceFailed` is the inline status item of line 38; `errorItem` the
generic handler's item of line 58; `updateItem` the trailing
`Update Currency` item of lines 61-67. -/
inductive QItem where
  | webserviceFailed (err : String)
  | errorItem (msg : String)
  | result (title description : String) (amount : PyNum)
  | updateItem (last_update : ℕ)
deriving DecidableEq, Repr

/-- Python `str(e)` for the modelled exceptions. -/
def errString : PyErr → String
  | .attributeError => "AttributeError"
  | .typeError => "TypeError"
  | .currencyError m => m

/-- Lines 61-67 of `query`: the trailing `Update Currency` status item,
emitted outside the try statement; it dereferences
`self.broker.last_update` unconditionally, so a missing broker raises
`AttributeError` out of `query`. -/
def updateStatusItem (st : PluginState) (items : List QItem) :
    Except PyErr (PluginState × List QItem) :=
  match st.broker with
  | none => .error .attributeError
  | some b => .ok (st, items ++ [.updateItem b.last_update])

/-- `CurrencyPP.query` (lines 19-67).  The try block's outcome is the
state, the items added so far, and whether control falls through to the
trailing status item (a `return` inside the try skips it; the generic
exception handler falls through to it).  `self._update_update_item()`
(line 35) is a host-side display refresh, modelled as a no-op. -/
def queryRun (st : PluginState) (input : String) :
    Except PyErr (PluginState × List QItem) :=
  let tryBlock : PluginState × List QItem × Bool :=
    match parseAndMerge st.broker st.parser input true with
    | .error (.currencyError _) => (st, [], false)
    | .error e => (st, [.errorItem (errString e)], true)
    | .ok t =>
      if ¬ isDirect t then (st, [], false)
      else
        match parseAndMerge st.broker st.parser input false with
        | .error (.currencyError _) => (st, [], false)
        | .error e => (st, [.errorItem (errString e)], true)
        | .ok q =>
          if q.destinations = none ∨ q.sources = none then (st, [], false)
          else
            match st.broker with
            | none => (st, [.errorItem (errString .attributeError)], true)
            | some b =>
              let b' := (tryUpdate b).2
              let st' : PluginState := ⟨some b', st.parser⟩
              match b'.error with
              | some err => (st', [.webserviceFailed err], false)
              | none =>
                match convert b' q with
                | .error (.currencyError _) => (st', [], false)
                | .error e => (st', [.errorItem (errString e)], true)
                | .ok rs =>
                  (st', rs.map (fun r => .result r.title r.description r.amount), true)
  if tryBlock.2.2 then updateStatusItem tryBlock.1 tryBlock.2.1
  else .ok (tryBlock.1, tryBlock.2.1)

/-- `currencyparser.ParserProperties`: the parser configuration bag.
Modelled from the spec; the field defaults stand for the constructor's
unconfigured state. -/
structure ParserProperties where
  default_cur_in : Option String := none
  default_curs_out : Option (List String) := none
  to_keywords : Option (List String) := none
  sep_keywords : Option (List String) := none
  aliases : List (String × String) := []

/-- Modelled from the spec: a currency token is matched case-insensitively
against canonical codes first, then against the alias mapping. -/
def matchCur (known : List String) (aliases : List (String × String))
    (t : String) : Option String :=
  let u := supper t
  if known.contains u then some u
  else (aliases.find? (fun p => p.1 = slower t)).map (fun p => p.2)

/-- Modelled from the spec: the tail of a destination clause,
`(destSep destCurrency)*`, consuming the whole token list. -/
def parseDestsTail (known : List String) (aliases : List (String × String))
    (seps : List String) : List String → Option (List String)
  | [] => some []
  | sep :: cur :: rest =>
    if seps.contains sep then
      match matchCur known aliases cur with
      | some c => (parseDestsTail known aliases seps rest).map (fun ds => c :: ds)
      | none => none
    else none
  | _ => none

/-- Modelled from the spec: a destination clause
`destCurrency (destSep destCurrency)*` consuming all tokens. -/
def parseDests (known : List String) (aliases : List (String × String))
    (seps : List String) : List String → Option (List String)
  | [] => none
  | cur :: rest =>
    match matchCur known aliases cur with
    | some c => (parseDestsTail known aliases seps rest).map (fun ds => c :: ds)
    | none => none

/-- Modelled from the spec: `currencyparser.make_parser` (the gate's
naming rules bar the source spelling of that name).  Grammar:
`query := [amount] [sourceCurrency] (toSep destCur (destSep destCur)*)?`
over whitespace-separated tokens; input matching no rule raises
ParseError; a parse with no clause at all also fails. -/
def specParser (known : List String) (props : ParserProperties) : QParser := fun s =>
  let toKw := props.to_keywords.getD ["to", "in", ":"]
  let sepKw := props.sep_keywords.getD ["and", "&", ","]
  let toks := wsplit s
  let st1 : Option PyFloat × List String :=
    match toks with
    | x :: rest =>
      match pyFloat x with
      | some a => (some a, rest)
      | none => (none, toks)
    | [] => (none, [])
  let st2 : Option String × List String :=
    match st1.2 with
    | x :: rest =>
      match matchCur known props.aliases x with
      | some c => (some c, rest)
      | none => (none, st1.2)
    | [] => (none, [])
  let srcs : Option (List SrcEntry) :=
    match st1.1, st2.1 with
    | none, none => none
    | a, c => some [⟨c, a.getD (.finite 1 0)⟩]
  match st2.2 with
  | [] => if srcs = none then .error () else .ok ⟨srcs, none, none⟩
  | k :: rest =>
    if toKw.contains k then
      match parseDests known props.aliases sepKw rest with
      | some ds => .ok ⟨srcs, some ds, none⟩
      | none => .error ()
    else .error ()

/-- The configuration snapshot read through `self.settings.get`; a field
is `none` when the key is absent (the dict `.get` default applies).
Non-string values behave like absent ones in every consumer here. -/
structure Settings where
  update_freq : Option String
  app_id : Option String
  input_cur : Option String
  output_cur : Option String
  separators : Option String
  destination_separators : Option String
  aliases : Option String

/-- The environment around `_read_config` / `reload_settings`:
whether cache-dir creation and broker construction succeed, whether
`settings.reload()` succeeds, what a freshly constructed broker starts
with, and what `make_parser` returns per property bag (`none` models a
construction exception). -/
structure Env where
  brokerInitOk : Bool
  settingsReloadOk : Bool
  known : List String
  initRates : List (String × ℚ)
  initLastUpdate : ℕ
  initStale : Bool
  fetchResult : Except String (List (String × ℚ) × ℕ)
  mkP : ParserProperties → Option QParser

/-- Lines 196-203: the update-frequency setting string with fallbacks. -/
def freqStrOf (s : Settings) : String :=
  match s.update_freq with
  | some u => if u = "" then "daily" else u
  | none => "daily"

/-- `UpdateFreq(update_freq_str)` with the exception fallback to daily. -/
def freqOf (s : Settings) : UpdateFreq :=
  (UpdateFreq.parse (freqStrOf s)).getD .daily

/-- Lines 205-212: the stripped API key with fallbacks. -/
def appIdOf (s : Settings) : String := strim (s.app_id.getD "")

/-- Lines 369-379: the to-separator keyword list with fallbacks. -/
def sepsOf (s : Settings) : List String :=
  match s.separators with
  | some v => if strim v = "" then ["to", "in", ":"] else wsplit (strim v)
  | none => ["to", "in", ":"]

/-- Lines 381-391: the destination-separator keyword list with fallbacks. -/
def dsepsOf (s : Settings) : List String :=
  match s.destination_separators with
  | some v => if strim v = "" then ["and", "&", ","] else wsplit (strim v)
  | none => ["and", "&", ","]

/-- Line 397: the aliases setting text with its documented default. -/
def aliasTextOf (s : Settings) : String :=
  s.aliases.getD "EUR = euro euros\nusd = dollar dollars $ bucks"

/-- Modelled from the spec: `ExchangeRates(cache_dir, freq, app_id, ...)`,
a fresh broker holding only hardcoded class defaults and the cache
snapshot; user default currencies are not yet set. -/
def newBroker (env : Env) (freq : UpdateFreq) (appId : String) : Broker :=
  { known := env.known, update_freq := freq, expensive_service := some appId
  , default_cur_in := none, default_curs_out := none, aliases := []
  , error := none, rates := env.initRates, last_update := env.initLastUpdate
  , stale := env.initStale, fetchResult := env.fetchResult }

/-- Lines 400-432: process one line of the aliases text against a
mapping: skip blank or `'='`-free or half-empty lines, validate the
currency key, then validate and add each whitespace-separated alias. -/
def processAliasLine (known : List String) (m : List (String × String))
    (line : String) : List (String × String) :=
  let l := strim line
  if l = "" ∨ ¬ l.data.contains '=' then m
  else
    match splitEq1 l with
    | none => m
    | some kp =>
      let key := strim kp.1
      let part := strim kp.2
      if key = "" ∨ part = "" then m
      else
        match validateCode known key with
        | none => m
        | some vk =>
          (wsplit part).foldl (fun m2 al =>
            match validateAlias known al with
            | some va => dictInsert m2 va vk
            | none => m2) m

/-- The alias mapping built from an aliases text block, starting from the
cleared (empty) mapping. -/
def buildAliasMap (known : List String) (text : String) : List (String × String) :=
  (splitNl text).foldl (processAliasLine known) []

/-- Lines 393-434: `clear_aliases()` followed by the rebuild from the
aliases text; everything but the alias mapping is untouched. -/
def aliasSection (b : Broker) (text : String) : Broker :=
  { b with aliases := buildAliasMap b.known text }

/-- Lines 263-298: read and set the input currency.  On first run a
failed set falls back to `'USD'`; during reload the set runs only when
the value differs from the current one, and a `None` current value with
no setting raises inside the try (caught; broker untouched). -/
def inputCurSection (isFirst : Bool) (s : Settings) (b : Broker) : Broker :=
  let current := b.default_cur_in
  let raw : Option String :=
    match s.input_cur with
    | some v => some v
    | none => if isFirst then some "USD" else current
  let code : Option String :=
    match raw with
    | some v => if strim v = "" then (if isFirst then some "USD" else current) else some v
    | none => none
  match code with
  | none => b
  | some c0 =>
    let c := strim c0
    if isFirst then
      let r := set_default_cur_in b c
      if r.1 then r.2 else (set_default_cur_in r.2 "USD").2
    else
      match current with
      | some cur => if c ≠ cur then (set_default_cur_in b c).2 else b
      | none => b

/-- Lines 300-367: read and set the output currencies.  First run walks
the fallback chain user value → `'USD EUR JPY'` → `'USD EUR'`; during
reload the set runs only when the joined current list differs from the
setting, and a lost (`None`) current list is restored from the setting. -/
def outputCurSection (isFirst : Bool) (s : Settings) (b : Broker) : Broker :=
  let oc : String :=
    match s.output_cur with
    | some v => if strim v = "" then "USD EUR JPY" else strim v
    | none => "USD EUR JPY"
  if isFirst then
    let r := set_default_curs_out b oc
    if r.1 then r.2
    else
      let r2 := set_default_curs_out r.2 "USD EUR JPY"
      if r2.1 then r2.2 else (set_default_curs_out r2.2 "USD EUR").2
  else
    match b.default_curs_out with
    | none =>
      let r := set_default_curs_out b oc
      if r.1 then r.2 else (set_default_curs_out r.2 "USD EUR").2
    | some cur =>
      if sjoin cur ≠ oc then (set_default_curs_out b oc).2 else b

/-- The full parser property bag of attempt 1 (lines 441-447).  The
broker always carries the probed attributes here, so the `getattr`
defaults of the source never apply. -/
def fullProps (b : Broker) (seps dseps : List String) : ParserProperties :=
  { default_cur_in := b.default_cur_in, default_curs_out := b.default_curs_out
  , to_keywords := some seps, sep_keywords := some dseps, aliases := b.aliases }

/-- The currencies-only property bag of attempt 2 (lines 457-460). -/
def minProps (b : Broker) : ParserProperties :=
  { default_cur_in := b.default_cur_in, default_curs_out := b.default_curs_out }

/-- The absolute-minimal property bag of the final attempt (line 471). -/
def ultProps : ParserProperties := {}

/-- Lines 436-482: the three-tier parser construction fallback chain.
Returns the parser, how many construction attempts ran, and whether the
critical total-failure log fired. -/
def parserSection (env : Env) (b : Broker) (seps dseps : List String) :
    Option QParser × ℕ × Bool :=
  match env.mkP (fullProps b seps dseps) with
  | some p => (some p, 1, false)
  | none =>
    match env.mkP (minProps b) with
    | some p => (some p, 2, false)
    | none =>
      match env.mkP ultProps with
      | some p => (some p, 3, false)
      | none => (none, 3, true)

/-- What `_read_config` reports: whether a broker was constructed, how
many forced rate refreshes ran, whether the broker-init try block bailed
out early, and the parser chain outcome. -/
structure RCLog where
  constructed : Bool
  forced : ℕ
  earlyReturn : Bool
  parserAttempts : ℕ
  parserCritical : Bool
deriving DecidableEq, Repr

/-- Lines 228-258: the reload branch of the broker-init section: diff the
update frequency and the API key against the broker, clear aliases, reset
the error, and force one rate refresh when either changed. -/
def readConfigReload (s : Settings) (b : Broker) : Broker × ℕ :=
  let freq := freqOf s
  let appId := appIdOf s
  let b1 := if b.update_freq ≠ freq then { b with update_freq := freq } else b
  let keyCh : Bool :=
    match b1.expensive_service with
    | some k => decide (k ≠ appId)
    | none => false
  let b2 := if keyCh then { b1 with expensive_service := some appId } else b1
  let b3 := { b2 with aliases := [], error := none }
  if b.update_freq ≠ freq ∨ keyCh = true then (brokerUpdate b3, 1) else (b3, 0)

/-- Lines 263-493: everything after the broker-init section of
`_read_config`: currencies, separators, aliases, parser chain. -/
def readConfigCont (env : Env) (s : Settings) (isFirst : Bool) (b : Broker)
    (forced : ℕ) (constructed : Bool) : PluginState × RCLog :=
  let b6 := inputCurSection isFirst s b
  let b7 := outputCurSection isFirst s b6
  let b8 := aliasSection b7 (aliasTextOf s)
  let ps := parserSection env b8 (sepsOf s) (dsepsOf s)
  (⟨some b8, ps.1⟩, ⟨constructed, forced, false, ps.2.1, ps.2.2⟩)

/-- `CurrencyPP._read_config` (lines 178-493).  A failing broker-init try
block (cache dir or constructor) logs and returns early with the state
untouched; otherwise a missing broker is constructed once and an existing
broker is updated in place, and the remaining sections run. -/
def readConfig (env : Env) (s : Settings) (st : PluginState) :
    PluginState × RCLog :=
  if env.brokerInitOk then
    match st.broker with
    | none => readConfigCont env s true (newBroker env (freqOf s) (appIdOf s)) 0 true
    | some b =>
      let r := readConfigReload s b
      readConfigCont env s false r.1 r.2 false
  else (st, ⟨false, 0, true, 0, false⟩)

/-- What `reload_settings` reports: total forced refreshes, whether a
broker was constructed, and whether the recovery handler ran. -/
structure RSLog where
  forced : ℕ
  constructed : Bool
  recovered : Bool
deriving DecidableEq, Repr

/-- Lines 104-110: the recovery handler of `reload_settings`: drop the
broker attribute and run `_read_config` from scratch. -/
def reloadRecover (env : Env) (s : Settings) (st : PluginState) :
    PluginState × RSLog :=
  let r := readConfig env s ⟨none, st.parser⟩
  (r.1, ⟨r.2.forced, r.2.constructed, true⟩)

/-- `CurrencyPP.reload_settings` (lines 76-110).  `old_state` exists only
when the broker was present at entry; a failing `settings.reload()` or a
present post-reload broker with no recorded `old_state` (a `NameError`)
lands in the recovery handler; otherwise changed default currencies force
one more rate refresh. -/
def reloadSettings (env : Env) (s : Settings) (st : PluginState) :
    PluginState × RSLog :=
  if env.settingsReloadOk then
    let r := readConfig env s st
    match r.1.broker with
    | none => (r.1, ⟨r.2.forced, r.2.constructed, false⟩)
    | some b =>
      match st.broker with
      | none => reloadRecover env s r.1
      | some ob =>
        if ob.default_cur_in ≠ b.default_cur_in ∨
            ob.default_curs_out ≠ b.default_curs_out then
          (⟨some (brokerUpdate b), r.1.parser⟩, ⟨r.2.forced + 1, r.2.constructed, false⟩)
        else (r.1, ⟨r.2.forced, r.2.constructed, false⟩)
  else reloadRecover env s st

/-- Known currency codes of the concrete test fixtures. -/
def knownStd : List String := ["USD", "EUR", "JPY"]

/-- A healthy broker fixture: fresh rates, no error. -/
def bStd : Broker :=
  { known := knownStd, update_freq := .daily, expensive_service := some ""
  , default_cur_in := some "USD", default_curs_out := some ["EUR", "JPY"]
  , aliases := [], error := none
  , rates := [("USD", 1), ("EUR", 2), ("JPY", 150)]
  , last_update := 5, stale := false, fetchResult := .error "offline" }

/-- `bStd` after a failed fetch left a recorded error. -/
def bErr : Broker := { bStd with error := some "boom" }

/-- Plugin state whose broker carries a recorded fetch error. -/
def stErr : PluginState := ⟨some bErr, none⟩

/-- Plugin state after a failed first initialization: no broker, no parser. -/
def stNone : PluginState := ⟨none, none⟩

/-- A fully configured parser property bag for the fixtures. -/
def propsStd : ParserProperties :=
  { default_cur_in := some "USD", default_curs_out := some ["EUR", "JPY"]
  , to_keywords := some ["to", "in", ":"], sep_keywords := some ["and", "&", ","]
  , aliases := [] }

/-- A settings snapshot agreeing with `bStd`. -/
def sStd : Settings :=
  { update_freq := some "daily", app_id := some "", input_cur := some "USD"
  , output_cur := some "EUR JPY", separators := none
  , destination_separators := none, aliases := none }

/-- A settings snapshot with every key absent. -/
def sEmpty : Settings :=
  { update_freq := none, app_id := none, input_cur := none, output_cur := none
  , separators := none, destination_separators := none, aliases := none }

/-- A healthy environment around the fixtures. -/
def envStd : Env :=
  { brokerInitOk := true, settingsReloadOk := true, known := knownStd
  , initRates := [], initLastUpdate := 0, initStale := true
  , fetchResult := .error "offline", mkP := fun _ => none }

/-- `envStd` with a failing `settings.reload()`. -/
def envReloadFail : Env := { envStd with settingsReloadOk := false }

/-- `bStd` with a user-configured non-default input currency. -/
def bEur : Broker := { bStd with default_cur_in := some "EUR" }

/-- Plugin state entering a reload: healthy broker, user-chosen input
currency EUR. -/
def stC2 : PluginState := ⟨some bEur, none⟩

/-- `bStd` carrying leftover alias entries from an earlier configuration. -/
def bJunk : Broker := { bStd with aliases := [("zzz", "USD")] }

/-- `envStd` whose `make_parser` succeeds on every property bag. -/
def envMkAll : Env :=
  { envStd with mkP := fun _ => some (specParser knownStd propsStd) }

example : pyFloat "100" = some (.finite 100 0) := by decide
example : pyFloat "-1e5" = some (.finite (-1) 5) := by decide
example : pyFloat " 2.5 " = some (.finite 25 (-1)) := by decide
example : pyFloat "NaN" = some .nan := by decide
example : pyFloat "-Infinity" = some .neginf := by decide
example : pyFloat "to" = none := by decide
example : pyFloat "" = none := by decide
example : pyFloat "1e" = none := by decide
example : pyFloat "." = none := by decide
example : pyFloat "1." = some (.finite 1 0) := by decide

/-! Helper lemmas shared by the claim theorems. -/

theorem parseAndMerge_fast (b : Broker) (pr : Option QParser) (input : String)
    (a : PyFloat) (l : List String) (e : Bool)
    (hl : b.default_curs_out = some l)
    (hf : pyFloat (strim input) = some a) (hne : strim input ≠ "") :
    parseAndMerge (some b) pr input e =
      .ok ⟨some [⟨b.default_cur_in, a⟩], some l, none⟩ := by
  simp only [parseAndMerge, if_neg hne, hf, hl]

theorem parseAndMerge_perr (br : Option Broker) (p : QParser) (input : String)
    (e : Bool) (hne : strim input ≠ "") (hnf : pyFloat (strim input) = none)
    (hp : p (strim input) = .error ()) :
    parseAndMerge br (some p) input e = .ok (mkBase br e) := by
  simp only [parseAndMerge, if_neg hne, hnf, hp]

/-! Claim theorems: query resolution pipeline. -/

/-- C5: an input the parser rejects makes `_parse_and_merge_input` return
the base query instead of propagating ParseError; inside `query` the call
that matters passes the empty flag, so `"to to to"` yields the unfilled
template request and is not treated as a direct request. -/
theorem parse_error_degrades_to_template :
    (∀ (br : Option Broker) (p : QParser) (input : String) (e : Bool),
      strim input ≠ "" → pyFloat (strim input) = none →
      p (strim input) = .error () →
      parseAndMerge br (some p) input e = .ok (mkBase br e)) ∧
    specParser knownStd propsStd "to to to" = .error () ∧
    parseAndMerge (some bStd) (some (specParser knownStd propsStd)) "to to to" true =
      .ok ⟨none, none, none⟩ ∧
    isDirect ⟨none, none, none⟩ = false := by
  refine ⟨fun br p input e hne hnf hp => parseAndMerge_perr br p input e hne hnf hp,
    ?_, ?_, rfl⟩
  · rfl
  · rfl

/-- C5 witness: the general part applied to the modelled grammar parser
on the malformed input `"to to to"` with the empty flag set. -/
theorem parse_error_degrades_to_template_witness :
    parseAndMerge (some bStd) (some (specParser knownStd propsStd)) "to to to" false =
      .ok (mkBase (some bStd) false) :=
  parse_error_degrades_to_template.1 (some bStd) (specParser knownStd propsStd)
    "to to to" false (by decide) (by decide) rfl

/-- C6: an input accepted as a bare numeric literal takes the fast path:
the request's sources are exactly `[(defaultSourceCurrency, a)]`, its
destinations are exactly the default destination list in order, and the
grammar parser is never consulted (the result is identical for every
parser value and every empty flag). -/
theorem numeric_fast_path (b : Broker) (p₁ p₂ : Option QParser) (input : String)
    (a : PyFloat) (c : String) (l : List String) (e₁ e₂ : Bool)
    (hc : b.default_cur_in = some c) (hl : b.default_curs_out = some l)
    (hf : pyFloat (strim input) = some a) (hne : strim input ≠ "") :
    parseAndMerge (some b) p₁ input e₁ =
      .ok ⟨some [⟨some c, a⟩], some l, none⟩ ∧
    parseAndMerge (some b) p₁ input e₁ = parseAndMerge (some b) p₂ input e₂ := by
  have h1 := parseAndMerge_fast b p₁ input a l e₁ hl hf hne
  have h2 := parseAndMerge_fast b p₂ input a l e₂ hl hf hne
  rw [hc] at h1
  exact ⟨h1, by rw [h1, ← hc, ← h2]⟩

/-- C6 witness: input `"100"` against the healthy fixture broker, with
two different parser values. -/
theorem numeric_fast_path_witness :
    parseAndMerge (some bStd) none "100" true =
      .ok ⟨some [⟨some "USD", .finite 100 0⟩], some ["EUR", "JPY"], none⟩ ∧
    parseAndMerge (some bStd) none "100" true =
      parseAndMerge (some bStd) (some (specParser knownStd propsStd)) "100" false :=
  numeric_fast_path bStd none (some (specParser knownStd propsStd)) "100"
    (.finite 100 0) "USD" ["EUR", "JPY"] true false rfl rfl (by decide) (by decide)

/-- C7: an input that reaches the grammar parser and parses successfully
has missing (None or empty) destinations and sources backfilled from the
broker defaults before the request is returned; present fields and the
extra field pass through unchanged. -/
theorem parsed_query_backfilled (b : Broker) (p : QParser) (input : String)
    (e : Bool) (parsed : QueryDict) (l : List String)
    (hl : b.default_curs_out = some l) (hne : strim input ≠ "")
    (hnf : pyFloat (strim input) = none) (hp : p (strim input) = .ok parsed) :
    parseAndMerge (some b) (some p) input e =
      .ok ⟨(if parsed.sources = none ∨ parsed.sources = some [] then
              some [⟨b.default_cur_in, .finite 1 0⟩] else parsed.sources),
           (if parsed.destinations = none ∨ parsed.destinations = some [] then
              some l else parsed.destinations),
           parsed.extra⟩ := by
  by_cases hd : parsed.destinations = none ∨ parsed.destinations = some [] <;>
    by_cases hs : parsed.sources = none ∨ parsed.sources = some [] <;>
      simp only [parseAndMerge, if_neg hne, hnf, hp, hl, if_pos, if_neg,
        hd, hs, if_true, if_false]

/-- C7 witness: a parser returning a query with no sources and empty
destinations on input `"gibberish"` gets both fields backfilled. -/
theorem parsed_query_backfilled_witness :
    parseAndMerge (some bStd)
        (some (fun _ => .ok ⟨none, some [], some "x"⟩)) "gibberish" false =
      .ok ⟨some [⟨some "USD", .finite 1 0⟩], some ["EUR", "JPY"], some "x"⟩ :=
  parsed_query_backfilled bStd (fun _ => .ok ⟨none, some [], some "x"⟩)
    "gibberish" false ⟨none, some [], some "x"⟩ ["EUR", "JPY"] rfl
    (by decide) (by decide) rfl

/-- C10: every input accepted by the Python float model — negative,
exponent notation, inf, nan included — takes the numeric fast path with
that value as the amount regardless of the empty flag, and the result is
always classified as a direct request by `_is_direct_request`. -/
theorem numeric_path_ignores_template_flag (b : Broker) (p : Option QParser)
    (input : String) (a : PyFloat) (l : List String) (e : Bool)
    (hl : b.default_curs_out = some l)
    (hf : pyFloat (strim input) = some a) (hne : strim input ≠ "") :
    parseAndMerge (some b) p input e = parseAndMerge (some b) p input false ∧
    parseAndMerge (some b) p input true =
      .ok ⟨some [⟨b.default_cur_in, a⟩], some l, none⟩ ∧
    (∀ q, parseAndMerge (some b) p input true = .ok q → isDirect q = true) := by
  have he := parseAndMerge_fast b p input a l e hl hf hne
  have hf2 := parseAndMerge_fast b p input a l false hl hf hne
  have ht := parseAndMerge_fast b p input a l true hl hf hne
  refine ⟨by rw [he, hf2], ht, fun q hq => ?_⟩
  rw [ht] at hq
  cases hq
  rfl

/-- C10 witness: the negative exponent literal `"-1e5"` and the literal
`"nan"` both take the fast path with the template flag set. -/
theorem numeric_path_ignores_template_flag_witness :
    (parseAndMerge (some bStd) none "-1e5" true =
        parseAndMerge (some bStd) none "-1e5" false ∧
      parseAndMerge (some bStd) none "-1e5" true =
        .ok ⟨some [⟨bStd.default_cur_in, .finite (-1) 5⟩], some ["EUR", "JPY"], none⟩ ∧
      (∀ q, parseAndMerge (some bStd) none "-1e5" true = .ok q →
        isDirect q = true)) ∧
    parseAndMerge (some bStd) none "nan" true =
      .ok ⟨some [⟨bStd.default_cur_in, .nan⟩], some ["EUR", "JPY"], none⟩ :=
  ⟨numeric_path_ignores_template_flag bStd none "-1e5" (.finite (-1) 5)
      ["EUR", "JPY"] true rfl (by decide) (by decide),
    (numeric_path_ignores_template_flag bStd none "nan" .nan
      ["EUR", "JPY"] true rfl (by decide) (by decide)).2.1⟩

/-! Claim theorems: query error handling. -/

/-- C1 counterexample: with a recorded fetch error on the broker and the
fixture rates cached, `query` on `"100"` emits only the inline
`Webservice failed` status item and returns — no conversion result is
produced from the stale rate table (the claim's asserted conversion
results are absent). -/
theorem query_broker_error_counterexample :
    queryRun stErr "100" = .ok (stErr, [.webserviceFailed "boom"]) := rfl

/-- C1 amended: when the broker has a recorded fetch error (and is fresh,
so `tryUpdate` does not attempt a refresh), `query` surfaces the error as
an inline status item and returns early: the conversion is not performed
and no conversion results and no update item are emitted. -/
theorem query_broker_error_surfaced_no_conversion (st : PluginState) (b : Broker)
    (input : String) (a : PyFloat) (l : List String) (err : String)
    (hb : st.broker = some b) (hstale : b.stale = false)
    (herr : b.error = some err) (hl : b.default_curs_out = some l)
    (hf : pyFloat (strim input) = some a) (hne : strim input ≠ "") :
    queryRun st input = .ok (⟨some b, st.parser⟩, [.webserviceFailed err]) := by
  have hfast := fun e => parseAndMerge_fast b st.parser input a l e hl hf hne
  simp only [queryRun, hb, hfast, isDirect, Option.isSome, Bool.true_or,
    Bool.not_true, if_false, tryUpdate, hstale, herr, if_neg, ite_false,
    Bool.false_eq_true, not_false_eq_true, reduceCtorEq, or_self, if_true]
  simp

/-- C1 witness: the amended theorem at the error fixture. -/
theorem query_broker_error_surfaced_no_conversion_witness :
    queryRun stErr "250" = .ok (⟨some bErr, none⟩, [.webserviceFailed "boom"]) :=
  query_broker_error_surfaced_no_conversion stErr bErr "250" (.finite 250 0)
    ["EUR", "JPY"] "boom" rfl rfl rfl rfl (by decide) (by decide)

/-- C4: with no broker (first initialization failed) the numeric input
`"100"` makes `query` raise `AttributeError` to the caller: the fast path
raises inside the try block, the generic handler catches it and adds an
error item, but the trailing `Update Currency` item outside the try
dereferences `self.broker.last_update` and raises uncaught. -/
theorem query_none_broker_raises :
    queryRun stNone "100" = .error .attributeError := rfl

/-! Field-preservation lemmas for the configuration sections. -/

theorem set_cur_in_curs_out (b : Broker) (c : String) :
    ((set_default_cur_in b c).2).default_curs_out = b.default_curs_out := by
  unfold set_default_cur_in
  cases h : validateCode b.known c <;> rfl

theorem set_cur_in_known (b : Broker) (c : String) :
    ((set_default_cur_in b c).2).known = b.known := by
  unfold set_default_cur_in
  cases h : validateCode b.known c <;> rfl

theorem set_cur_in_rates (b : Broker) (c : String) :
    ((set_default_cur_in b c).2).rates = b.rates := by
  unfold set_default_cur_in
  cases h : validateCode b.known c <;> rfl

theorem set_cur_in_last_update (b : Broker) (c : String) :
    ((set_default_cur_in b c).2).last_update = b.last_update := by
  unfold set_default_cur_in
  cases h : validateCode b.known c <;> rfl

theorem set_curs_out_cur_in (b : Broker) (c : String) :
    ((set_default_curs_out b c).2).default_cur_in = b.default_cur_in := by
  unfold set_default_curs_out
  dsimp only
  split <;> rfl

theorem set_curs_out_known (b : Broker) (c : String) :
    ((set_default_curs_out b c).2).known = b.known := by
  unfold set_default_curs_out
  dsimp only
  split <;> rfl

theorem set_curs_out_rates (b : Broker) (c : String) :
    ((set_default_curs_out b c).2).rates = b.rates := by
  unfold set_default_curs_out
  dsimp only
  split <;> rfl

theorem set_curs_out_last_update (b : Broker) (c : String) :
    ((set_default_curs_out b c).2).last_update = b.last_update := by
  unfold set_default_curs_out
  dsimp only
  split <;> rfl

theorem brokerUpdate_cur_in (b : Broker) :
    (brokerUpdate b).default_cur_in = b.default_cur_in := by
  unfold brokerUpdate
  cases h : b.fetchResult <;> rfl

theorem brokerUpdate_curs_out (b : Broker) :
    (brokerUpdate b).default_curs_out = b.default_curs_out := by
  unfold brokerUpdate
  cases h : b.fetchResult <;> rfl

theorem brokerUpdate_known (b : Broker) :
    (brokerUpdate b).known = b.known := by
  unfold brokerUpdate
  cases h : b.fetchResult <;> rfl

theorem inputCurSection_curs_out (f : Bool) (s : Settings) (b : Broker) :
    (inputCurSection f s b).default_curs_out = b.default_curs_out := by
  unfold inputCurSection
  repeat (first
    | rfl
    | (simp only [set_cur_in_curs_out])
    | split)

theorem inputCurSection_known (f : Bool) (s : Settings) (b : Broker) :
    (inputCurSection f s b).known = b.known := by
  unfold inputCurSection
  repeat (first
    | rfl
    | (simp only [set_cur_in_known])
    | split)

theorem inputCurSection_rates (f : Bool) (s : Settings) (b : Broker) :
    (inputCurSection f s b).rates = b.rates := by
  unfold inputCurSection
  repeat (first
    | rfl
    | (simp only [set_cur_in_rates])
    | split)

theorem inputCurSection_last_update (f : Bool) (s : Settings) (b : Broker) :
    (inputCurSection f s b).last_update = b.last_update := by
  unfold inputCurSection
  repeat (first
    | rfl
    | (simp only [set_cur_in_last_update])
    | split)

theorem outputCurSection_cur_in (f : Bool) (s : Settings) (b : Broker) :
    (outputCurSection f s b).default_cur_in = b.default_cur_in := by
  unfold outputCurSection
  repeat (first
    | rfl
    | (simp only [set_curs_out_cur_in])
    | split)

theorem outputCurSection_known (f : Bool) (s : Settings) (b : Broker) :
    (outputCurSection f s b).known = b.known := by
  unfold outputCurSection
  repeat (first
    | rfl
    | (simp only [set_curs_out_known])
    | split)

theorem outputCurSection_rates (f : Bool) (s : Settings) (b : Broker) :
    (outputCurSection f s b).rates = b.rates := by
  unfold outputCurSection
  repeat (first
    | rfl
    | (simp only [set_curs_out_rates])
    | split)

theorem outputCurSection_last_update (f : Bool) (s : Settings) (b : Broker) :
    (outputCurSection f s b).last_update = b.last_update := by
  unfold outputCurSection
  repeat (first
    | rfl
    | (simp only [set_curs_out_last_update])
    | split)

theorem readConfig_broker_isSome (env : Env) (s : Settings) (st : PluginState)
    (b : Broker) (hb : st.broker = some b) :
    ∃ b', (readConfig env s st).1.broker = some b' := by
  cases henv : env.brokerInitOk
  · simp only [readConfig, henv, Bool.false_eq_true, if_false]
    exact ⟨b, hb⟩
  · simp only [readConfig, henv, if_true, hb, readConfigCont]
    exact ⟨_, rfl⟩

/-! Claim theorems: broker lifecycle. -/

/-- C2 counterexample: a reload whose `settings.reload()` raises lands in
the recovery handler, which drops the broker and reruns `_read_config`
from scratch: a NEW broker is constructed during this `reload_settings`
call, and the user-configured input currency (EUR) silently resets to the
hardcoded default (USD). -/
theorem broker_reconstructed_counterexample :
    (reloadSettings envReloadFail sEmpty stC2).2.constructed = true ∧
    ((reloadSettings envReloadFail sEmpty stC2).1.broker.map
        Broker.default_cur_in) = some (some "USD") ∧
    bEur.default_cur_in = some "EUR" := ⟨rfl, rfl, rfl⟩

/-- C2 amended: `_read_config` never constructs a broker while one
exists, and a reload whose `settings.reload()` succeeds mutates that same
broker in place; reconstruction happens only in the last-resort recovery
path of a failed reload. -/
theorem broker_mutated_in_place_amended :
    (∀ (env : Env) (s : Settings) (st : PluginState) (b : Broker),
      st.broker = some b → (readConfig env s st).2.constructed = false) ∧
    (∀ (env : Env) (s : Settings) (st : PluginState) (b : Broker),
      st.broker = some b → env.settingsReloadOk = true →
      (reloadSettings env s st).2.constructed = false ∧
      (reloadSettings env s st).2.recovered = false) := by
  have h1 : ∀ (env : Env) (s : Settings) (st : PluginState) (b : Broker),
      st.broker = some b → (readConfig env s st).2.constructed = false := by
    intro env s st b hb
    cases henv : env.brokerInitOk
    · simp only [readConfig, henv, Bool.false_eq_true, if_false]
    · simp only [readConfig, henv, if_true, hb, readConfigCont]
  refine ⟨h1, fun env s st b hb hok => ?_⟩
  obtain ⟨b', hb'⟩ := readConfig_broker_isSome env s st b hb
  unfold reloadSettings
  simp only [hok, if_true, hb', hb]
  split
  · exact ⟨h1 env s st b hb, rfl⟩
  · exact ⟨h1 env s st b hb, rfl⟩

/-- C2 witness: the amended theorem at the healthy fixtures. -/
theorem broker_mutated_in_place_amended_witness :
    (readConfig envStd sStd ⟨some bStd, none⟩).2.constructed = false ∧
    (reloadSettings envStd sStd ⟨some bStd, none⟩).2.constructed = false ∧
    (reloadSettings envStd sStd ⟨some bStd, none⟩).2.recovered = false :=
  ⟨broker_mutated_in_place_amended.1 envStd sStd ⟨some bStd, none⟩ bStd rfl,
    (broker_mutated_in_place_amended.2 envStd sStd ⟨some bStd, none⟩ bStd rfl rfl).1,
    (broker_mutated_in_place_amended.2 envStd sStd ⟨some bStd, none⟩ bStd rfl rfl).2⟩

theorem readConfigReload_known (s : Settings) (b : Broker) :
    ((readConfigReload s b).1).known = b.known := by
  unfold readConfigReload
  dsimp only
  repeat (first
    | rfl
    | (rw [brokerUpdate_known])
    | split)

/-! Claim theorems: configuration reconciliation. -/

/-- C8: with a broker present, `_read_config` clears the alias mapping
and rebuilds it from the aliases setting text: the resulting mapping is
exactly the one built fresh from that text over the broker's known code
set, independent of the prior alias state; hence two calls with the same
text over the same code set produce equal mappings. -/
theorem aliases_cleared_and_rebuilt :
    (∀ (env : Env) (s : Settings) (st : PluginState) (b : Broker),
      st.broker = some b → env.brokerInitOk = true →
      ∃ b', (readConfig env s st).1.broker = some b' ∧
        b'.aliases = buildAliasMap b.known (aliasTextOf s)) ∧
    (∀ (env₁ env₂ : Env) (s : Settings) (st₁ st₂ : PluginState) (b₁ b₂ : Broker),
      st₁.broker = some b₁ → st₂.broker = some b₂ →
      env₁.brokerInitOk = true → env₂.brokerInitOk = true →
      b₁.known = b₂.known →
      ∃ b₁' b₂', (readConfig env₁ s st₁).1.broker = some b₁' ∧
        (readConfig env₂ s st₂).1.broker = some b₂' ∧
        b₁'.aliases = b₂'.aliases) := by
  have h1 : ∀ (env : Env) (s : Settings) (st : PluginState) (b : Broker),
      st.broker = some b → env.brokerInitOk = true →
      ∃ b', (readConfig env s st).1.broker = some b' ∧
        b'.aliases = buildAliasMap b.known (aliasTextOf s) := by
    intro env s st b hb henv
    refine ⟨aliasSection (outputCurSection false s (inputCurSection false s
        (readConfigReload s b).1)) (aliasTextOf s), ?_, ?_⟩
    · simp only [readConfig, henv, if_true, hb, readConfigCont]
    · unfold aliasSection
      dsimp only
      rw [outputCurSection_known, inputCurSection_known, readConfigReload_known]
  refine ⟨h1, fun env₁ env₂ s st₁ st₂ b₁ b₂ h₁ h₂ he₁ he₂ hk => ?_⟩
  obtain ⟨b₁', hb₁, ha₁⟩ := h1 env₁ s st₁ b₁ h₁ he₁
  obtain ⟨b₂', hb₂, ha₂⟩ := h1 env₂ s st₂ b₂ h₂ he₂
  exact ⟨b₁', b₂', hb₁, hb₂, by rw [ha₁, ha₂, hk]⟩

/-- C8 witness: a broker carrying stale alias entries gets exactly the
freshly built mapping after `_read_config`. -/
theorem aliases_cleared_and_rebuilt_witness :
    ∃ b', (readConfig envStd sStd ⟨some bJunk, none⟩).1.broker = some b' ∧
      b'.aliases = buildAliasMap bJunk.known (aliasTextOf sStd) :=
  aliases_cleared_and_rebuilt.1 envStd sStd ⟨some bJunk, none⟩ bJunk rfl rfl

/-- C9: the three-tier parser construction fallback chain of
`_read_config`: the first property bag whose construction succeeds is
used with later tiers not attempted; when all three fail the parser is
set to None, the critical log fires, and `_read_config` still returns
normally (no early bail-out). -/
theorem parser_fallback_chain :
    (∀ (env : Env) (b : Broker) (seps dseps : List String) (p : QParser),
      env.mkP (fullProps b seps dseps) = some p →
      parserSection env b seps dseps = (some p, 1, false)) ∧
    (∀ (env : Env) (b : Broker) (seps dseps : List String) (p : QParser),
      env.mkP (fullProps b seps dseps) = none →
      env.mkP (minProps b) = some p →
      parserSection env b seps dseps = (some p, 2, false)) ∧
    (∀ (env : Env) (b : Broker) (seps dseps : List String) (p : QParser),
      env.mkP (fullProps b seps dseps) = none →
      env.mkP (minProps b) = none → env.mkP ultProps = some p →
      parserSection env b seps dseps = (some p, 3, false)) ∧
    (∀ (env : Env) (b : Broker) (seps dseps : List String),
      env.mkP (fullProps b seps dseps) = none →
      env.mkP (minProps b) = none → env.mkP ultProps = none →
      parserSection env b seps dseps = (none, 3, true)) ∧
    (∀ (env : Env) (s : Settings) (st : PluginState),
      env.brokerInitOk = true → (∀ pr, env.mkP pr = none) →
      (readConfig env s st).1.parser = none ∧
      (readConfig env s st).2.parserCritical = true ∧
      (readConfig env s st).2.earlyReturn = false) := by
  refine ⟨fun env b seps dseps p h1 => by simp only [parserSection, h1],
    fun env b seps dseps p h1 h2 => by simp only [parserSection, h1, h2],
    fun env b seps dseps p h1 h2 h3 => by simp only [parserSection, h1, h2, h3],
    fun env b seps dseps h1 h2 h3 => by simp only [parserSection, h1, h2, h3],
    fun env s st henv hall => ?_⟩
  cases hb : st.broker <;>
    simp only [readConfig, henv, if_true, hb, readConfigCont, parserSection, hall] <;>
      exact ⟨trivial, trivial, trivial⟩

/-- C9 witness: a succeeding `make_parser` is used at tier one; an
all-failing `make_parser` leaves the parser unset with the critical log,
and `_read_config` completes. -/
theorem parser_fallback_chain_witness :
    parserSection envMkAll bStd ["to"] ["and"] =
      (some (specParser knownStd propsStd), 1, false) ∧
    ((readConfig envStd sStd stNone).1.parser = none ∧
      (readConfig envStd sStd stNone).2.parserCritical = true ∧
      (readConfig envStd sStd stNone).2.earlyReturn = false) :=
  ⟨parser_fallback_chain.1 envMkAll bStd ["to"] ["and"]
      (specParser knownStd propsStd) rfl,
    parser_fallback_chain.2.2.2.2 envStd sStd stNone rfl (fun _ => rfl)⟩

theorem inputCurSection_unchanged (s : Settings) (b : Broker) (ci : String)
    (hb : b.default_cur_in = some ci) (hs : s.input_cur = some ci)
    (ht : strim ci = ci) (hne : ci ≠ "") :
    inputCurSection false s b = b := by
  unfold inputCurSection
  simp only [hs, hb, ht, hne, if_neg, ite_false, Bool.false_eq_true, if_false,
    ne_eq, not_true_eq_false]

theorem outputCurSection_unchanged (s : Settings) (b : Broker) (j : String)
    (l : List String)
    (hb : b.default_curs_out = some l) (hs : s.output_cur = some j)
    (hj : j = sjoin l) (ht : strim j = j) (hne : j ≠ "") :
    outputCurSection false s b = b := by
  subst hj
  unfold outputCurSection
  simp only [hs, ht, hne, hb, Bool.false_eq_true, if_false, ite_false, ne_eq,
    not_true_eq_false]

theorem readConfigReload_unchanged (s : Settings) (b : Broker)
    (hf : b.update_freq = freqOf s)
    (hk : b.expensive_service = some (appIdOf s)) :
    readConfigReload s b = ({ b with aliases := [], error := none }, 0) := by
  unfold readConfigReload
  simp [hf, hk]

theorem readConfigReload_forced (s : Settings) (b : Broker) (k : String)
    (hk : b.expensive_service = some k) :
    ((readConfigReload s b).2 = 0 ↔
      (b.update_freq = freqOf s ∧ k = appIdOf s)) ∧
    (readConfigReload s b).1.default_cur_in = b.default_cur_in ∧
    (readConfigReload s b).1.default_curs_out = b.default_curs_out := by
  unfold readConfigReload
  by_cases hf : b.update_freq = freqOf s <;>
    by_cases hkk : k = appIdOf s <;>
      simp [hf, hkk, hk, brokerUpdate_cur_in, brokerUpdate_curs_out]

theorem readConfig_reload_eq (env : Env) (s : Settings) (p : Option QParser)
    (b : Broker) (henv : env.brokerInitOk = true) :
    readConfig env s ⟨some b, p⟩ =
      readConfigCont env s false (readConfigReload s b).1
        (readConfigReload s b).2 false := by
  unfold readConfig
  simp only [henv, if_true]

theorem readConfigCont_eq (env : Env) (s : Settings) (f : Bool) (b : Broker)
    (n : ℕ) (c : Bool) :
    readConfigCont env s f b n c =
      (⟨some (aliasSection (outputCurSection f s (inputCurSection f s b))
          (aliasTextOf s)),
        (parserSection env
          (aliasSection (outputCurSection f s (inputCurSection f s b))
            (aliasTextOf s)) (sepsOf s) (dsepsOf s)).1⟩,
       ⟨c, n, false,
        (parserSection env
          (aliasSection (outputCurSection f s (inputCurSection f s b))
            (aliasTextOf s)) (sepsOf s) (dsepsOf s)).2.1,
        (parserSection env
          (aliasSection (outputCurSection f s (inputCurSection f s b))
            (aliasTextOf s)) (sepsOf s) (dsepsOf s)).2.2⟩) := rfl


/-- C3: a reload whose settings snapshot agrees with the broker state
(update frequency, API key, input currency, joined output currencies)
forces no rate refresh and leaves `default_cur_in`, `default_curs_out`
and the rate table (rates and their last update time) unchanged; and in
general, `force_update` runs during a reload exactly when the update
frequency, the API key, or one of the default currencies actually
changed across the reload. -/
theorem reload_unchanged_frame_and_force_iff :
    (∀ (env : Env) (s : Settings) (p : Option QParser) (b : Broker)
        (ci j : String) (l : List String),
      env.brokerInitOk = true → env.settingsReloadOk = true →
      b.update_freq = freqOf s → b.expensive_service = some (appIdOf s) →
      b.default_cur_in = some ci → s.input_cur = some ci →
      strim ci = ci → ci ≠ "" →
      b.default_curs_out = some l → s.output_cur = some j →
      j = sjoin l → strim j = j → j ≠ "" →
      (reloadSettings env s ⟨some b, p⟩).2.forced = 0 ∧
      ∃ b', (reloadSettings env s ⟨some b, p⟩).1.broker = some b' ∧
        b'.default_cur_in = b.default_cur_in ∧
        b'.default_curs_out = b.default_curs_out ∧
        b'.rates = b.rates ∧ b'.last_update = b.last_update) ∧
    (∀ (env : Env) (s : Settings) (p : Option QParser) (b : Broker) (k : String),
      env.brokerInitOk = true → env.settingsReloadOk = true →
      b.expensive_service = some k →
      ∃ b', (reloadSettings env s ⟨some b, p⟩).1.broker = some b' ∧
        ((reloadSettings env s ⟨some b, p⟩).2.forced ≠ 0 ↔
          (b.update_freq ≠ freqOf s ∨ k ≠ appIdOf s ∨
           b.default_cur_in ≠ b'.default_cur_in ∨
           b.default_curs_out ≠ b'.default_curs_out))) := by
  constructor
  · intro env s p b ci j l henv hok hf hk hci hsi hti hnei hcl hso hj htj hnej
    have hrc := readConfig_reload_eq env s p b henv
    rw [readConfigCont_eq, readConfigReload_unchanged s b hf hk] at hrc
    dsimp only at hrc
    rw [inputCurSection_unchanged s ({ b with aliases := [], error := none })
        ci hci hsi hti hnei,
      outputCurSection_unchanged s ({ b with aliases := [], error := none })
        j l hcl hso hj htj hnej] at hrc
    unfold reloadSettings
    simp only [hok, if_true, hrc]
    dsimp only [aliasSection]
    rw [if_neg (by simp)]
    exact ⟨rfl, _, rfl, rfl, rfl, rfl, rfl⟩
  · intro env s p b k henv hok hk
    have hrc := readConfig_reload_eq env s p b henv
    rw [readConfigCont_eq] at hrc
    obtain ⟨hFiff, hd1, hd2⟩ := readConfigReload_forced s b k hk
    unfold reloadSettings
    simp only [hok, if_true, hrc]
    by_cases h1 : b.default_cur_in =
        (aliasSection (outputCurSection false s
          (inputCurSection false s (readConfigReload s b).1))
          (aliasTextOf s)).default_cur_in
    · by_cases h2 : b.default_curs_out =
          (aliasSection (outputCurSection false s
            (inputCurSection false s (readConfigReload s b).1))
            (aliasTextOf s)).default_curs_out
      · rw [if_neg (by simp [h1, h2])]
        refine ⟨_, rfl, ?_⟩
        simp only [ne_eq, h1, h2, not_true_eq_false, or_false, hFiff, not_and_or]
      · rw [if_pos (Or.inr h2)]
        refine ⟨_, rfl, ?_⟩
        rw [brokerUpdate_cur_in, brokerUpdate_curs_out]
        exact iff_of_true (by simp) (Or.inr (Or.inr (Or.inr h2)))
    · rw [if_pos (Or.inl h1)]
      refine ⟨_, rfl, ?_⟩
      rw [brokerUpdate_cur_in, brokerUpdate_curs_out]
      exact iff_of_true (by simp) (Or.inr (Or.inr (Or.inl h1)))

/-- C3 witness: the frame part at the agreeing fixture snapshot. -/
theorem reload_unchanged_frame_and_force_iff_witness :
    (reloadSettings envStd sStd ⟨some bStd, none⟩).2.forced = 0 ∧
    ∃ b', (reloadSettings envStd sStd ⟨some bStd, none⟩).1.broker = some b' ∧
      b'.default_cur_in = bStd.default_cur_in ∧
      b'.default_curs_out = bStd.default_curs_out ∧
      b'.rates = bStd.rates ∧ b'.last_update = bStd.last_update :=
  reload_unchanged_frame_and_force_iff.1 envStd sStd none bStd "USD" "EUR JPY"
    ["EUR", "JPY"] rfl rfl rfl rfl rfl rfl (by decide) (by decide) rfl rfl
    (by decide) (by decide) (by decide)
